import Mathlib

/-!
Shallow embedding of the document parsing and educational content
classification pipeline of the `singsi` repository
(`app/services/document/...`), together with theorems settling the
specification claims about it.

Text is modelled as `List Char` (Python `str`); Python dictionaries with
heterogeneous values are modelled by association lists over `PyVal`.
Python regular-expression constructs used by the source are restricted to
the concrete patterns appearing there and are translated into explicit
character scanners.  `\d` and `\s` are modelled by ASCII digits and ASCII
whitespace, which agree with Python on every input considered here.
-/

namespace SingSi

/-! ## Python string primitives -/

/-- Python whitespace characters, as stripped by `str.strip()` (ASCII part). -/
def isPySpace (c : Char) : Bool :=
  c = ' ' || c = '\t' || c = '\n' || c = '\r' || c = '\x0b' || c = '\x0c'

/-- Characters matched by the regex class `\s` (ASCII part). -/
def isRegexSpace (c : Char) : Bool :=
  isPySpace c

/-- ASCII decimal digit, the regex class `\d` on the inputs considered. -/
def isAsciiDigit (c : Char) : Bool :=
  '0' ≤ c && c ≤ '9'

/-- Python `str.lstrip()` (whitespace on the left). -/
def lstripL (s : List Char) : List Char :=
  s.dropWhile isPySpace

/-- Python `str.strip()`: drop whitespace on both ends. -/
def stripL (s : List Char) : List Char :=
  ((lstripL s).reverse.dropWhile isPySpace).reverse

/-- Does `s` start with `p`?  (Python `str.startswith`.) -/
def startsWithL : List Char → List Char → Bool
  | _, [] => true
  | [], _ :: _ => false
  | c :: cs, d :: ds => c = d && startsWithL cs ds

/-- Python substring membership `needle in hay` (contiguous occurrence). -/
def containsSub : List Char → List Char → Bool
  | hay, needle =>
    startsWithL hay needle ||
      match hay with
      | [] => false
      | _ :: t => containsSub t needle

/-- Index of the first occurrence of `needle` in `hay`, Python `str.find`
(total here: callers only use it after a containment check; on absence we
return the length, which no caller observes). -/
def findSub : List Char → List Char → Nat
  | hay, needle =>
    if startsWithL hay needle then 0
    else
      match hay with
      | [] => 0
      | _ :: t => findSub t needle + 1

/-- Python `text.split(sep)` restricted to the single-character separator
`'\n'` used by the source. -/
def splitNl : List Char → List (List Char)
  | [] => [[]]
  | c :: t =>
    if c = '\n' then [] :: splitNl t
    else
      match splitNl t with
      | [] => [[c]]
      | l :: ls => (c :: l) :: ls

/-- Python `str.lower()` on the ASCII range; other characters (notably the
Traditional Chinese keywords of the source) are unchanged, as in Python. -/
def lowerChar (c : Char) : Char :=
  if 'A' ≤ c && c ≤ 'Z' then Char.ofNat (c.toNat + 32) else c

/-- Lower-case a whole string. -/
def lowerL (s : List Char) : List Char :=
  s.map lowerChar

/-! ## Python values and the ParsingResult data model
(`app/services/document/parser_base.py`) -/

/-- Python values stored in the string-keyed dictionaries of the source. -/
inductive PyVal where
  | vStr : List Char → PyVal
  | vInt : Int → PyVal
  | vBool : Bool → PyVal
  | vNone : PyVal
  | vList : List PyVal → PyVal
  | vDict : List (String × PyVal) → PyVal

/-- Dictionary lookup (`dict.get(key)`), first binding wins. -/
def dictGet (d : List (String × PyVal)) (k : String) : Option PyVal :=
  match d with
  | [] => none
  | (k0, v) :: t => if k0 = k then some v else dictGet t k

/-- Read a string-valued entry out of `optional_data`. -/
def getStrField (d : List (String × PyVal)) (k : String) : Option (List Char) :=
  match dictGet d k with
  | some (PyVal.vStr s) => some s
  | _ => none

/-- Read a list-valued entry out of `optional_data` (absent means `None`,
which `x or []` turns into the empty list). -/
def getListField (d : List (String × PyVal)) (k : String) : List PyVal :=
  match dictGet d k with
  | some (PyVal.vList l) => l
  | _ => []

/-- The attributes of a constructed `ParsingResult`
(`parser_base.ParsingResult.__init__`).  The Python attribute `structure`
is a Lean keyword and is rendered `docStructure`. -/
structure ParsingResult where
  text : List Char
  metadata : List (String × PyVal)
  pages : Int
  docStructure : List (String × PyVal)
  error : Option (List Char)
  tables : List PyVal
  images : List PyVal
  audioTranscription : Option (List Char)

/-- Body of `ParsingResult.__init__` for a call whose keywords all belong to
the signature `(text, metadata=None, pages=1, structure=None,
optional_data=None)`: `error`, `tables`, `images` and `audio_transcription`
are read out of `optional_data`, and missing dictionaries default to `{}`
(resp. `[]`, `None`). -/
def mkParsingResult (text : List Char) (metadata : Option (List (String × PyVal)))
    (pages : Int) (struct : Option (List (String × PyVal)))
    (optionalData : Option (List (String × PyVal))) : ParsingResult :=
  { text := text
    metadata := metadata.getD []
    pages := pages
    docStructure := struct.getD []
    error := getStrField (optionalData.getD []) "error"
    tables := getListField (optionalData.getD []) "tables"
    images := getListField (optionalData.getD []) "images"
    audioTranscription := getStrField (optionalData.getD []) "audio_transcription" }

/-- The `success` property: `error is None`. -/
def ParsingResult.success (r : ParsingResult) : Bool :=
  r.error.isNone

/-- The `error` attribute as a Python value (`None` or the string). -/
def errVal (e : Option (List Char)) : PyVal :=
  match e with
  | some s => PyVal.vStr s
  | none => PyVal.vNone

/-- Python truthiness of the optional string `audio_transcription`:
`None` and the empty string are falsy. -/
def truthyOptStr (s : Option (List Char)) : Bool :=
  match s with
  | some l => decide (l ≠ [])
  | none => false

/-- Translation of `ParsingResult.to_dict`: the six base keys are always
present; `tables`, `images` and `audio_transcription` are appended only when
the attribute is truthy. -/
def ParsingResult.toDict (r : ParsingResult) : List (String × PyVal) :=
  [("text", PyVal.vStr r.text),
   ("metadata", PyVal.vDict r.metadata),
   ("pages", PyVal.vInt r.pages),
   ("structure", PyVal.vDict r.docStructure),
   ("success", PyVal.vBool r.success),
   ("error", errVal r.error)]
  ++ (match r.tables with
      | [] => []
      | ts => [("tables", PyVal.vList ts)])
  ++ (match r.images with
      | [] => []
      | is => [("images", PyVal.vList is)])
  ++ (if truthyOptStr r.audioTranscription then
        [("audio_transcription", errVal r.audioTranscription)]
      else [])

/-! ## Python call semantics for `ParsingResult(...)`

`ParsingResult.__init__` accepts exactly the keywords `text`, `metadata`,
`pages`, `structure` and `optional_data`.  Several call sites in the
repository (`pdf_parser.py`, `docx_parser.py`, `image_parser.py`,
`markitdown_parser.py`, `parsing_service.py`) instead pass `error=` as a
keyword; in Python such a call raises
`TypeError: __init__() got an unexpected keyword argument` before the body
runs.  Exceptions are modelled by `Except PyErr`. -/

/-- Exceptions that can arise in the modelled fragment. -/
inductive PyErr where
  /-- A call passed a keyword argument that is not in the callee signature. -/
  | typeErrorUnexpectedKw : String → PyErr
  /-- An exception raised by an external library (PyMuPDF, PDFMiner, ...),
  carrying its message. -/
  | ext : List Char → PyErr

/-- Outcome of any source call `ParsingResult(..., error=...)`: the keyword
`error` is not a parameter of `__init__`, so the call raises `TypeError`
regardless of the argument values. -/
def callParsingResultErrorKw : Except PyErr ParsingResult :=
  Except.error (PyErr.typeErrorUnexpectedKw "error")

/-! ## PDF parser (`app/services/document/parsers/pdf_parser.py`)

`_parse_with_pymupdf` and `_parse_with_pdfminer` call external libraries on
the raw bytes; their outcomes for the given input are the `primary` and
`fallback` parameters (`_parse_with_pdfminer` is deterministic in the
content, so both of its call sites see the same outcome). -/

/-- The constant `EXPECTED_MIN_TEXT_LENGTH`. -/
def EXPECTED_MIN_TEXT_LENGTH : Nat := 100

/-- Value of `structure.get('page_count', 1)`. -/
def pageCountOf (struct : List (String × PyVal)) : Int :=
  match dictGet struct "page_count" with
  | some (PyVal.vInt n) => n
  | _ => 1

/-- The body of the `except Exception` handler of `PDFParser.parse`
(lines 65-85): every branch calls `ParsingResult(..., error=...)`, and the
`TypeError` raised inside the inner `try` is caught by the inner handler,
whose own `ParsingResult(text='', error=...)` call raises `TypeError`
again and propagates out of `parse`. -/
def pdfExceptBranch (fallback : Except PyErr (List Char)) :
    Except PyErr ParsingResult :=
  match fallback with
  | Except.ok simpleText =>
    if simpleText ≠ [] ∧ (stripL simpleText).length > 0 then
      callParsingResultErrorKw
    else
      callParsingResultErrorKw
  | Except.error _ => callParsingResultErrorKw

/-- Translation of `PDFParser.parse`.  `primary` is the outcome of
`_parse_with_pymupdf(content)` (extracted text, metadata, structure) and
`fallback` the outcome of `_parse_with_pdfminer(content)`. -/
def pdfParse (primary : Except PyErr (List Char × List (String × PyVal) × List (String × PyVal)))
    (fallback : Except PyErr (List Char)) : Except PyErr ParsingResult :=
  match primary with
  | Except.error _ => pdfExceptBranch fallback
  | Except.ok (text0, metadata, struct) =>
    if text0 = [] ∨ (stripL text0).length < EXPECTED_MIN_TEXT_LENGTH then
      match fallback with
      | Except.error _ =>
        -- the fallback call at line 40 raised inside the outer try
        pdfExceptBranch fallback
      | Except.ok fb =>
        let text := if (stripL fb).length > (stripL text0).length then fb else text0
        if text ≠ [] ∧ (stripL text).length ≥ EXPECTED_MIN_TEXT_LENGTH then
          Except.ok (mkParsingResult text (some metadata) (pageCountOf struct)
            (some struct) none)
        else
          -- ParsingResult(..., error='Extracted text is minimal...'): TypeError,
          -- caught by the outer handler
          pdfExceptBranch fallback
    else
      -- primary text already reached the threshold; no fallback is consulted
      Except.ok (mkParsingResult text0 (some metadata) (pageCountOf struct)
        (some struct) none)

/-! ## Parser registry and parsing service
(`parser_base.ParserRegistry`, `parsing_service.DocumentParsingService`) -/

/-- The MIME types registered at import time: the union of
`supported_mimetypes()` of `DocxParser`, `ImageParser`, `MarkitdownParser`
and `PDFParser` (later registrations overwrite, which does not change the
key set). -/
def registeredMimetypes : List String :=
  ["application/vnd.openxmlformats-officedocument.wordprocessingml.document",
   "application/msword",
   "image/jpeg", "image/png", "image/gif", "image/tiff", "image/bmp",
   "application/pdf",
   "application/vnd.ms-powerpoint",
   "application/vnd.openxmlformats-officedocument.presentationml.presentation",
   "application/vnd.ms-excel",
   "application/vnd.openxmlformats-officedocument.spreadsheetml.sheet",
   "text/plain", "text/csv", "application/json", "text/html",
   "application/zip", "application/x-zip-compressed"]

/-- Is a (normalized) MIME type in the registry? -/
def registryHas (m : List Char) : Bool :=
  registeredMimetypes.any (fun s => s.toList == m)

/-- Normalization performed by `parse_document`:
`mimetype.split(';')[0].strip().lower()`. -/
def normalizeMime (mimetype : List Char) : List Char :=
  lowerL (stripL (mimetype.takeWhile (fun c => c ≠ ';')))

/-- Translation of `DocumentParsingService.parse_document`.  `parseOutcome`
is the outcome of `parser.parse(content, filename)` for the dispatched
parser (unused when no parser is registered for the type).  In the
unsupported branch the source calls
`ParsingResult(text='', error='Unsupported document type: ...')`,
which raises `TypeError` (see `callParsingResultErrorKw`). -/
def parseDocument (mimetype : List Char)
    (parseOutcome : Except PyErr ParsingResult) :
    Except PyErr (List (String × PyVal)) :=
  let m := normalizeMime mimetype
  if registryHas m then
    parseOutcome.map ParsingResult.toDict
  else
    callParsingResultErrorKw.map ParsingResult.toDict

/-! ## Educational content analyzer
(`app/services/document/education_content_analyzer.py`) -/

/-- The `EducationalDocumentType` enumeration. -/
inductive EducationalDocumentType where
  | UNKNOWN
  | SYLLABUS
  | LECTURE_NOTES
  | WORKSHEET
  | EXAM
  | TEXTBOOK
  | LESSON_PLAN
deriving DecidableEq

/-- The `.value` string of each enumeration member. -/
def docTypeValue : EducationalDocumentType → String
  | EducationalDocumentType.UNKNOWN => "unknown"
  | EducationalDocumentType.SYLLABUS => "syllabus"
  | EducationalDocumentType.LECTURE_NOTES => "lecture_notes"
  | EducationalDocumentType.WORKSHEET => "worksheet"
  | EducationalDocumentType.EXAM => "exam"
  | EducationalDocumentType.TEXTBOOK => "textbook"
  | EducationalDocumentType.LESSON_PLAN => "lesson_plan"

/-- Chinese numerals of the question-number pattern. -/
def isChineseNumeral (c : Char) : Bool :=
  c = '一' || c = '二' || c = '三' || c = '四' || c = '五' ||
  c = '六' || c = '七' || c = '八' || c = '九' || c = '十'

/-- Roman-numeral letters of the question-number pattern. -/
def isRomanNumeral (c : Char) : Bool :=
  c = 'I' || c = 'V' || c = 'X' || c = 'L' || c = 'C' || c = 'D' || c = 'M'

/-- Matcher for the regexes `^\s*(CLASS+[\.)。])` (`re.match`, anchored at
the line start): optional whitespace, one or more characters of the class,
then one of `.`, `)`, `。`.  Returns `(group(1), match.end())`. -/
def matchEnumMarker (cls : Char → Bool) (line : List Char) :
    Option (List Char × Nat) :=
  let ws := line.takeWhile isRegexSpace
  let rest := line.drop ws.length
  let ds := rest.takeWhile cls
  if ds = [] then none
  else
    match rest.drop ds.length with
    | c :: _ =>
      if c = '.' ∨ c = ')' ∨ c = '。' then
        some (ds ++ [c], ws.length + ds.length + 1)
      else none
    | [] => none

/-- Matcher for the regex `^\s*第\s*(\d+)\s*題`.
Returns `(group(1), match.end())`. -/
def matchDiNTi (line : List Char) : Option (List Char × Nat) :=
  let ws := line.takeWhile isRegexSpace
  match line.drop ws.length with
  | c :: rest1 =>
    if c = '第' then
      let ws2 := rest1.takeWhile isRegexSpace
      let rest2 := rest1.drop ws2.length
      let ds := rest2.takeWhile isAsciiDigit
      if ds = [] then none
      else
        let rest3 := rest2.drop ds.length
        let ws3 := rest3.takeWhile isRegexSpace
        match rest3.drop ws3.length with
        | d :: _ =>
          if d = '題' then
            some (ds, ws.length + 1 + ws2.length + ds.length + ws3.length + 1)
          else none
        | [] => none
    else none
  | [] => none

/-- The four `question_number` patterns, in source order. -/
def questionMatchers : List (List Char → Option (List Char × Nat)) :=
  [matchEnumMarker isAsciiDigit,
   matchEnumMarker isChineseNumeral,
   matchEnumMarker isRomanNumeral,
   matchDiNTi]

/-- `_contains_multiple_questions` counts, over all lines, every pattern
that matches the line (the loop has no `break`), and reports whether the
count reaches 3 (early return at 3 is equivalent to comparing the total). -/
def questionMatchCount (ls : List (List Char)) : Nat :=
  (ls.map (fun l => (questionMatchers.filter (fun m => (m l).isSome)).length)).sum

/-- Translation of `_contains_multiple_questions`. -/
def containsMultipleQuestions (text : List Char) : Bool :=
  3 ≤ questionMatchCount (splitNl text)

/-- Keyword containment: `any(term in text for term in terms)`. -/
def anyTerm (terms : List String) (t : List Char) : Bool :=
  terms.any (fun kw => containsSub t kw.toList)

/-- Keyword sets of `_identify_document_type`, in source order. -/
def syllabusTerms : List String := ["syllabus", "course outline", "課程大綱", "教學大綱"]

/-- Exam keyword set. -/
def examTerms : List String := ["exam", "quiz", "test", "考試", "測驗"]

/-- Worksheet keyword set. -/
def worksheetTerms : List String := ["worksheet", "exercise", "練習", "作業"]

/-- Lesson-plan keyword set. -/
def lessonPlanTerms : List String := ["lesson plan", "teaching plan", "教案", "課程計劃"]

/-- Lecture keyword set. -/
def lectureTerms : List String := ["lecture", "lecture notes", "講義"]

/-- Grading keyword set of the multiple-questions branch. -/
def gradingTerms : List String :=
  ["grade", "score", "time limit", "評分", "成績", "時間限制"]

/-- Translation of `_identify_document_type`: the text is lower-cased
(`text = parsing_result.text.lower()`, applied at each use below) and the
ordered keyword rules are applied, first match winning. -/
def identifyDocumentType (text : List Char) : EducationalDocumentType :=
  if anyTerm syllabusTerms (lowerL text) then EducationalDocumentType.SYLLABUS
  else if anyTerm examTerms (lowerL text) then EducationalDocumentType.EXAM
  else if anyTerm worksheetTerms (lowerL text) then EducationalDocumentType.WORKSHEET
  else if anyTerm lessonPlanTerms (lowerL text) then EducationalDocumentType.LESSON_PLAN
  else if anyTerm lectureTerms (lowerL text) then EducationalDocumentType.LECTURE_NOTES
  else if containsMultipleQuestions (lowerL text) then
    if anyTerm gradingTerms (lowerL text) then EducationalDocumentType.EXAM
    else EducationalDocumentType.WORKSHEET
  else EducationalDocumentType.UNKNOWN

/-- A question record built by `_extract_questions`.  The source also
initializes a `sub_questions` entry to `[]` and never appends to it, so it
is omitted from the model. -/
structure Question where
  number : List Char
  text : List Char
  options : List (Char × List Char)
deriving DecidableEq

/-- First question-number pattern matching the line (the source loop breaks
on the first match). -/
def questionStart (line : List Char) : Option (List Char × Nat) :=
  match matchEnumMarker isAsciiDigit line with
  | some r => some r
  | none =>
    match matchEnumMarker isChineseNumeral line with
    | some r => some r
    | none =>
      match matchEnumMarker isRomanNumeral line with
      | some r => some r
      | none => matchDiNTi line

/-- Matcher for the option regex `^\s*([A-D])[\.、](.*)$`:
returns `(group(1), group(2))`. -/
def matchOptionLine (line : List Char) : Option (Char × List Char) :=
  let ws := line.takeWhile isRegexSpace
  match line.drop ws.length with
  | c :: rest =>
    if 'A' ≤ c ∧ c ≤ 'D' then
      match rest with
      | d :: rest2 => if d = '.' ∨ d = '、' then some (c, rest2) else none
      | [] => none
    else none
  | [] => none

/-- Line-scanning loop of `_extract_questions`: a question-number line
closes the current question and opens a new one; option lines extend the
current question's options; other non-blank lines extend its text. -/
def extractQuestionsGo : List (List Char) → Option Question → List Question →
    List Question
  | [], cur, acc =>
    (match cur with
     | some q => acc ++ [q]
     | none => acc)
  | line :: rest, cur, acc =>
    match questionStart line with
    | some (g1, e) =>
      let acc2 :=
        match cur with
        | some q => acc ++ [q]
        | none => acc
      extractQuestionsGo rest
        (some { number := g1, text := stripL (line.drop e), options := [] }) acc2
    | none =>
      match cur with
      | none => extractQuestionsGo rest none acc
      | some q =>
        match matchOptionLine line with
        | some (lab, txt) =>
          extractQuestionsGo rest
            (some { q with options := q.options ++ [(lab, stripL txt)] }) acc
        | none =>
          if stripL line ≠ [] then
            extractQuestionsGo rest
              (some { q with text := q.text ++ '\n' :: stripL line }) acc
          else
            extractQuestionsGo rest (some q) acc

/-- Translation of `_extract_questions`. -/
def extractQuestions (text : List Char) : List Question :=
  extractQuestionsGo (splitNl text) none []

/-- Keyword list `patterns['learning_objectives']`, in source order. -/
def objectiveKeywords : List String :=
  ["learning objectives", "teaching objectives", "course objectives",
   "students will be able to", "learning outcomes", "this course aims to",
   "learning focus", "core competencies",
   "學習目標", "教學目標", "課程目標", "學生將能夠",
   "學習成果", "本課程旨在", "學習重點", "核心能力"]

/-- Characters of the split-regex class `[\d\.\)、]`. -/
def objectiveMarkerChar (c : Char) : Bool :=
  isAsciiDigit c || c = '.' || c = ')' || c = '、'

/-- After a `\n`, the rest of the split pattern `\s*[\d\.\)、]`:
greedy whitespace then one marker character; returns the remaining
suffix on success. -/
def tryObjMarker (rest : List Char) : Option (List Char) :=
  match rest.dropWhile isRegexSpace with
  | c :: cs => if objectiveMarkerChar c then some cs else none
  | [] => none

/-- Scanner for `re.split(r'\n\s*[\d\.\)、]', s)`: leftmost, non-overlapping
matches split the string, the matched separator being discarded.  `acc`
holds the current fragment reversed.  The scanner recurses structurally on
a fuel count so that it evaluates by reduction; each step consumes at least
one character of `s`, so `s.length + 1` fuel (as supplied by
`splitObjMarkers`) is always enough and the out-of-fuel clause is never
reached. -/
def splitObjGo : Nat → List Char → List Char → List (List Char)
  | 0, _, acc => [acc.reverse]
  | _ + 1, [], acc => [acc.reverse]
  | fuel + 1, c :: rest, acc =>
    if c = '\n' then
      match tryObjMarker rest with
      | some rest2 => acc.reverse :: splitObjGo fuel rest2 []
      | none => splitObjGo fuel rest ('\n' :: acc)
    else splitObjGo fuel rest (c :: acc)

/-- The full split. -/
def splitObjMarkers (s : List Char) : List (List Char) :=
  splitObjGo (s.length + 1) s []

/-- The first learning-objectives keyword contained in the text
(source loop order, `break` after the first hit). -/
def firstObjectiveKeyword (text : List Char) : Option (List Char) :=
  (objectiveKeywords.map String.toList).find? (fun kw => containsSub text kw)

/-- Translation of `_extract_learning_objectives`: substring from just
after the first matching keyword up to the next `"\n\n"` (or end of text),
stripped, split on the list-marker regex, each nonempty stripped item kept. -/
def extractLearningObjectives (text : List Char) : List (List Char) :=
  match firstObjectiveKeyword text with
  | none => []
  | some kw =>
    let startPos := findSub text kw + kw.length
    let tailText := text.drop startPos
    let objRegion :=
      if containsSub tailText ['\n', '\n'] then
        tailText.take (findSub tailText ['\n', '\n'])
      else tailText
    let objectiveText := stripL objRegion
    if objectiveText = [] then []
    else
      (splitObjMarkers objectiveText).filterMap fun item =>
        let s := stripL item
        if s = [] then none else some s

/-- The heuristics-only path of `EducationalContentAnalyzer.analyze`
(`ai_service is None`): identify the type, then extract questions only for
`WORKSHEET` and objectives only for `SYLLABUS`; `educational_elements`
stays empty for every other type. -/
structure EduAnalysis where
  documentType : EducationalDocumentType
  questions : Option (List Question)
  objectives : Option (List (List Char))
deriving DecidableEq

/-- Translation of `analyze` (heuristic part, operating on
`parsing_result.text`). -/
def analyzeHeuristic (text : List Char) : EduAnalysis :=
  let dt := identifyDocumentType text
  { documentType := dt
    questions :=
      if dt = EducationalDocumentType.WORKSHEET then some (extractQuestions text)
      else none
    objectives :=
      if dt = EducationalDocumentType.SYLLABUS then
        some (extractLearningObjectives text)
      else none }

/-! ## Word parser page estimate
(`app/services/document/parsers/docx_parser.py`, `_extract_structure`) -/

/-- Python `round()` on an exact rational: nearest integer, ties to even.
The float division `total_chars / 3000` is exact at every tie point
(`chars = 3000k + 1500` gives a dyadic rational), so the rational model
agrees with the float computation on the tie-breaking behaviour. -/
def pyRoundHalfEven (q : ℚ) : Int :=
  let f := ⌊q⌋
  let r := q - f
  if r < 1 / 2 then f
  else if 1 / 2 < r then f + 1
  else if f % 2 = 0 then f else f + 1

/-- Python `int()` truncation toward zero. -/
def pyInt (q : ℚ) : Int :=
  if q < 0 then -⌊-q⌋ else ⌊q⌋

/-- The page estimate of `_extract_structure`:
`estimated_pages = max(1, round(total_chars / 3000))`, then
`estimated_pages += tables_count * 0.5`, then
`estimated_pages = int(estimated_pages + 0.5)`. -/
def estimatedPages (totalChars tablesCount : Nat) : Int :=
  let pages1 : Int := max 1 (pyRoundHalfEven ((totalChars : ℚ) / 3000))
  pyInt ((pages1 : ℚ) + (tablesCount : ℚ) * (1 / 2) + 1 / 2)

/-- Modelled from the spec: the claimed formula "total character count
divided by about 3000 characters per page, plus 0.5 pages per embedded
table, rounded to the nearest integer with a minimum of 1, such that any
fractional remainder ≥ 0.5 after the table adjustment rounds up", written
for comparison against `estimatedPages` (rounding half up is
`⌊x + 1/2⌋`). -/
def specEstimatedPages (totalChars tablesCount : Nat) : Int :=
  max 1 ⌊(totalChars : ℚ) / 3000 + (tablesCount : ℚ) * (1 / 2) + 1 / 2⌋

/-! ## AI document analyzer
(`app/services/document/integration/ai_document_analyzer.py`) -/

/-- Option record of a question, as placed in the Python result dict. -/
def questionOptionVal (o : Char × List Char) : PyVal :=
  PyVal.vDict [("label", PyVal.vStr [o.1]), ("text", PyVal.vStr o.2)]

/-- A question record as a Python value (`sub_questions` is always `[]`). -/
def questionVal (q : Question) : PyVal :=
  PyVal.vDict [("number", PyVal.vStr q.number), ("text", PyVal.vStr q.text),
               ("options", PyVal.vList (q.options.map questionOptionVal)),
               ("sub_questions", PyVal.vList [])]

/-- The `educational_elements` dictionary assembled by `analyze`. -/
def eduElementsDict (e : EduAnalysis) : List (String × PyVal) :=
  (match e.questions with
   | some qs => [("questions", PyVal.vList (qs.map questionVal))]
   | none => [])
  ++ (match e.objectives with
      | some os => [("objectives", PyVal.vList (os.map PyVal.vStr))]
      | none => [])

/-- The result dictionary of `AIDocumentAnalyzer.analyze_document`, with its
keys as typed fields (`content_relationships` and `errors` are present only
when set). -/
structure AnalyzerOutput where
  documentType : String
  docStructure : List (String × PyVal)
  educationalElements : List (String × PyVal)
  aiInsights : PyVal
  contentRelationships : Option PyVal
  errors : Option (List (List Char))

/-- Translation of `AIDocumentAnalyzer.analyze_document`.  `edu` is the
result of `self.edu_analyzer.analyze(parsing_result)` and `enhancement`
the dictionary returned by `_perform_depth_specific_analysis` (both catch
their own exceptions internally and return dictionaries).  `rel` is the
outcome of the awaited call
`self._analyze_content_relationships(parsing_result.text, edu_analysis)`:
on an exception the handler appends exactly one message to the `errors`
list (which the result does not yet contain) and leaves every other key of
the result untouched; the function itself always returns a dictionary, so
no exception propagates to the caller. -/
def analyzeDocument (pr : ParsingResult) (depth : String) (edu : EduAnalysis)
    (enhancement : PyVal) (rel : Except PyErr PyVal) : AnalyzerOutput :=
  let base : AnalyzerOutput :=
    { documentType := docTypeValue edu.documentType
      docStructure := pr.docStructure
      educationalElements := eduElementsDict edu
      aiInsights := enhancement
      contentRelationships := none
      errors := none }
  if depth = "deep" ∧ truthyOptStr pr.error = false then
    match rel with
    | Except.ok r => { base with contentRelationships := some r }
    | Except.error _ =>
      { base with
          errors := some ((base.errors.getD []) ++
            [String.toList "Relationship analysis failed"]) }
  else base

/-! ## Concrete inputs used by the theorems -/

/-- Scenario text of spec §8, Scenario 1. -/
def s1Text : List Char :=
  String.toList "學習目標\n1. Understand fractions\n2. Apply fractions\n\nNext section"

/-- The repeated line of spec §8, Scenario 2. -/
def s2Line : String := "1. What is 2+2? A. 3 B. 4 C. 5"

/-- Scenario text of spec §8, Scenario 2: the line three times, plus the
scoring keyword. -/
def s2Text : List Char :=
  String.toList (s2Line ++ "\n" ++ s2Line ++ "\n" ++ s2Line ++ "\n成績")

/-- A 3-character primary extraction (clearly under the 100-char threshold). -/
def shortPdfText : List Char := List.replicate 3 'a'

/-- A 120-character fallback extraction (over the threshold). -/
def longPdfText : List Char := List.replicate 120 'b'

/-- The result `pdfParse` produces when the long fallback text wins. -/
def pdfFallbackResult : ParsingResult :=
  mkParsingResult longPdfText (some []) (pageCountOf []) (some []) none

/-- An error-free parse result used to instantiate the analyzer theorems. -/
def plainParsingResult : ParsingResult :=
  mkParsingResult (String.toList "some text") (some []) 1 (some []) none

/-- A minimal educational analysis used to instantiate the analyzer
theorems. -/
def plainEduAnalysis : EduAnalysis :=
  { documentType := EducationalDocumentType.UNKNOWN
    questions := none
    objectives := none }

/-- A 50-character extraction, as in spec §8 Scenario 3. -/
def scannedPdfText : List Char := List.replicate 50 'a'

/-- The keys of a result dictionary, in order. -/
def dictKeys (d : List (String × PyVal)) : List String :=
  d.map Prod.fst

/-- A parsing result with every optional sequence populated, to instantiate
the `to_dict` theorem. -/
def richParsingResult : ParsingResult :=
  { text := String.toList "t"
    metadata := []
    pages := 2
    docStructure := []
    error := none
    tables := [PyVal.vDict []]
    images := []
    audioTranscription := some (String.toList "hello") }

/-! ## Helper lemmas -/

theorem pdfExceptBranch_error (f : Except PyErr (List Char)) :
    pdfExceptBranch f = Except.error (PyErr.typeErrorUnexpectedKw "error") := by
  unfold pdfExceptBranch
  rcases f with e | s
  · rfl
  · exact (ite_self _).trans rfl

theorem pyInt_int_add_half (p : Int) (t : Nat) (hp : 1 ≤ p) :
    pyInt ((p : ℚ) + (t : ℚ) * (1 / 2) + 1 / 2) = p + ((t + 1) / 2 : Nat) := by
  rcases Nat.even_or_odd t with ⟨k, hk⟩ | ⟨k, hk⟩
  · subst hk
    have hq : ((p : ℚ) + ((k + k : Nat) : ℚ) * (1 / 2) + 1 / 2)
        = ((p + k : Int) : ℚ) + 1 / 2 := by push_cast; ring
    have hpos : ¬ (((p : ℚ) + ((k + k : Nat) : ℚ) * (1 / 2) + 1 / 2) < 0) := by
      rw [hq]
      have h1 : (1 : ℚ) ≤ ((p + k : Int) : ℚ) := by
        have : (1 : Int) ≤ p + k := by omega
        exact_mod_cast this
      linarith
    rw [pyInt, if_neg hpos, hq]
    rw [Int.floor_int_add]
    have hhalf : ⌊(1 / 2 : ℚ)⌋ = 0 := by
      rw [Int.floor_eq_iff]
      norm_num
    have ht : ((k + k + 1) / 2 : Nat) = k := by omega
    rw [hhalf, ht]
    omega
  · subst hk
    have hq : ((p : ℚ) + ((2 * k + 1 : Nat) : ℚ) * (1 / 2) + 1 / 2)
        = ((p + k + 1 : Int) : ℚ) := by push_cast; ring
    have hpos : ¬ (((p : ℚ) + ((2 * k + 1 : Nat) : ℚ) * (1 / 2) + 1 / 2) < 0) := by
      rw [hq]
      have h1 : (1 : Int) ≤ p + k + 1 := by omega
      have : (1 : ℚ) ≤ ((p + k + 1 : Int) : ℚ) := by exact_mod_cast h1
      linarith
    rw [pyInt, if_neg hpos, hq, Int.floor_intCast]
    have ht : ((2 * k + 1 + 1) / 2 : Nat) = k + 1 := by omega
    rw [ht]
    omega

/-! ## Claim theorems -/

/-- C1: the claim says `parse` never raises and converts extraction failures
into a `ParsingResult` with `error` set and empty `text`.  In the code,
every error branch calls `ParsingResult(..., error=...)`, whose `__init__`
has no `error` parameter, so on an input where both extractors fail the
`parse` call raises `TypeError` instead of returning a result. -/
theorem c1_pdf_parse_raises_instead_of_error_result :
    pdfParse
      (Except.error (PyErr.ext (String.toList "cannot open broken document")))
      (Except.error (PyErr.ext (String.toList "no text extracted"))) =
    Except.error (PyErr.typeErrorUnexpectedKw "error") := rfl

/-- C2: the claim says `parse_document` on an unregistered MIME type returns
a mapping with `error = "Unsupported document type: ..."`.  In the code the
unsupported branch calls `ParsingResult(text='', error=...)`, which raises
`TypeError`, so `parse_document` raises instead of returning the mapping. -/
theorem c2_unsupported_mimetype_raises (po : Except PyErr ParsingResult) :
    parseDocument (String.toList "application/unknown") po =
    Except.error (PyErr.typeErrorUnexpectedKw "error") := rfl

/-- C2 witness: the theorem applied at a concrete parse outcome. -/
theorem c2_unsupported_mimetype_raises_witness :
    parseDocument (String.toList "application/unknown")
      (Except.ok plainParsingResult) =
    Except.error (PyErr.typeErrorUnexpectedKw "error") :=
  c2_unsupported_mimetype_raises (Except.ok plainParsingResult)

/-- C3: the claim says a PDF with short extracted text (50 chars) yields a
degraded result (`success=false`, text carried, scanned/image-based error).
In the code the degraded branch calls `ParsingResult(..., error=...)`, which
raises `TypeError`; the handler chain re-raises it, so `parse` raises
instead of returning the degraded result. -/
theorem c3_short_pdf_raises_type_error :
    pdfParse
      (Except.ok (scannedPdfText, [], [("page_count", PyVal.vInt 1)]))
      (Except.ok []) =
    Except.error (PyErr.typeErrorUnexpectedKw "error") := rfl

/-- C4: for a deep-depth analysis of an error-free parse result in which the
concept-relationship sub-call throws, `analyze_document` still returns (no
exception escapes the modelled function, which is total), `ai_insights`
carries the depth-specific analysis unchanged, `errors` holds exactly one
entry, and `document_type`, `structure` and `educational_elements` are the
same values as in the non-throwing run. -/
theorem c4_relationship_failure_contained (pr : ParsingResult)
    (edu : EduAnalysis) (enh : PyVal) (e : PyErr) (h : pr.error = none) :
    analyzeDocument pr "deep" edu enh (Except.error e) =
      { documentType := docTypeValue edu.documentType
        docStructure := pr.docStructure
        educationalElements := eduElementsDict edu
        aiInsights := enh
        contentRelationships := none
        errors := some [String.toList "Relationship analysis failed"] } := by
  unfold analyzeDocument
  rw [if_pos (And.intro rfl (by rw [h]; rfl))]
  rfl

/-- C4 witness: the theorem applied at a concrete error-free parse result. -/
theorem c4_relationship_failure_contained_witness :
    plainParsingResult.error = none ∧
    analyzeDocument plainParsingResult "deep" plainEduAnalysis PyVal.vNone
        (Except.error (PyErr.ext [])) =
      { documentType := "unknown"
        docStructure := []
        educationalElements := []
        aiInsights := PyVal.vNone
        contentRelationships := none
        errors := some [String.toList "Relationship analysis failed"] } :=
  ⟨rfl, c4_relationship_failure_contained plainParsingResult plainEduAnalysis
    PyVal.vNone (PyErr.ext []) rfl⟩

/-- C5 counterexample: on the Scenario 1 text the classifier does not assign
SYLLABUS (its syllabus keywords do not include 學習目標), and the extractor
does not produce the claimed clean objective strings. -/
theorem c5_counterexample :
    ¬ (identifyDocumentType s1Text = EducationalDocumentType.SYLLABUS ∧
       extractLearningObjectives s1Text =
         [String.toList "Understand fractions",
          String.toList "Apply fractions"]) := by
  intro hcl
  exact absurd hcl.1 (by decide)

/-- C5 (amended): on the Scenario 1 text the classifier assigns UNKNOWN (no
syllabus keyword is present and only two lines match question-number
patterns), so `analyze` extracts no objectives; `_extract_learning_objectives`
applied directly finds 學習目標, takes the substring up to the blank line and
splits on the list-marker regex, which consumes only one marker character,
yielding `"1. Understand fractions"` and `". Apply fractions"`. -/
theorem c5_amended :
    identifyDocumentType s1Text = EducationalDocumentType.UNKNOWN ∧
    (analyzeHeuristic s1Text).objectives = none ∧
    extractLearningObjectives s1Text =
      [String.toList "1. Understand fractions",
       String.toList ". Apply fractions"] := by
  decide

/-- C6 counterexample: on the Scenario 2 text `analyze` leaves
`educational_elements` empty (questions are extracted only for WORKSHEET,
and the type here is EXAM), and even the direct extractor's three records
each carry 0 options, not 3. -/
theorem c6_counterexample :
    (eduElementsDict (analyzeHeuristic s2Text)).isEmpty = true ∧
    (extractQuestions s2Text).map (fun q => q.options.length) = [0, 0, 0] := by
  decide

/-- C6 (amended): the Scenario 2 text is classified EXAM (three numbered
lines plus the grading keyword 成績), but `analyze` extracts question
records only for WORKSHEET, so `educational_elements` stays empty;
`_extract_questions` applied directly yields three records whose option
lists are empty, the `A. 3 B. 4 C. 5` text staying inside each question's
text (options are only recognized on their own lines). -/
theorem c6_amended :
    identifyDocumentType s2Text = EducationalDocumentType.EXAM ∧
    (analyzeHeuristic s2Text).questions = none ∧
    extractQuestions s2Text =
      [{ number := String.toList "1.",
         text := String.toList "What is 2+2? A. 3 B. 4 C. 5", options := [] },
       { number := String.toList "1.",
         text := String.toList "What is 2+2? A. 3 B. 4 C. 5", options := [] },
       { number := String.toList "1.",
         text := String.toList "What is 2+2? A. 3 B. 4 C. 5\n成績",
         options := [] }] := by
  decide

/-- C7: when the primary extraction strips to fewer than 100 characters and
the fallback strips to strictly more, any result `parse` returns carries the
fallback text: the selection compares the two stripped lengths and keeps
the longer text. -/
theorem c7_fallback_longer_text_wins (t fb : List Char)
    (m s : List (String × PyVal)) (r : ParsingResult)
    (h1 : (stripL t).length < EXPECTED_MIN_TEXT_LENGTH)
    (h2 : (stripL t).length < (stripL fb).length)
    (h3 : pdfParse (Except.ok (t, m, s)) (Except.ok fb) = Except.ok r) :
    r.text = fb := by
  simp only [pdfParse] at h3
  rw [if_pos (Or.inr h1)] at h3
  rw [if_pos h2] at h3
  by_cases h4 : fb ≠ [] ∧ (stripL fb).length ≥ EXPECTED_MIN_TEXT_LENGTH
  · rw [if_pos h4] at h3
    cases h3
    rfl
  · rw [if_neg h4, pdfExceptBranch_error] at h3
    cases h3

set_option maxRecDepth 100000 in
/-- C7 witness: the theorem applied to a 3-character primary text and a
120-character fallback text. -/
theorem c7_fallback_longer_text_wins_witness :
    ((stripL shortPdfText).length < EXPECTED_MIN_TEXT_LENGTH ∧
     (stripL shortPdfText).length < (stripL longPdfText).length) ∧
    pdfFallbackResult.text = longPdfText :=
  ⟨⟨by decide, by decide⟩,
   c7_fallback_longer_text_wins shortPdfText longPdfText [] []
     pdfFallbackResult (by decide) (by decide) rfl⟩

/-- C8: classification is ordered with the syllabus rule first: any text
whose lower-cased form contains the keyword "syllabus" is classified
SYLLABUS, even when it also contains the exam keyword "exam"; matching is
substring search over the lower-cased text. -/
theorem c8_syllabus_rule_wins (text : List Char)
    (h1 : containsSub (lowerL text) (String.toList "syllabus") = true)
    (h2 : containsSub (lowerL text) (String.toList "exam") = true) :
    identifyDocumentType text = EducationalDocumentType.SYLLABUS := by
  have hs : anyTerm syllabusTerms (lowerL text) = true := by
    unfold anyTerm
    refine List.any_eq_true.mpr ⟨"syllabus", ?_, h1⟩
    simp [syllabusTerms]
  unfold identifyDocumentType
  rw [if_pos hs]

/-- C8 witness: the theorem applied to a text containing both keywords. -/
theorem c8_syllabus_rule_wins_witness :
    (containsSub (lowerL (String.toList "Course Syllabus, final exam rules"))
       (String.toList "syllabus") = true ∧
     containsSub (lowerL (String.toList "Course Syllabus, final exam rules"))
       (String.toList "exam") = true) ∧
    identifyDocumentType (String.toList "Course Syllabus, final exam rules") =
      EducationalDocumentType.SYLLABUS :=
  ⟨⟨by decide, by decide⟩,
   c8_syllabus_rule_wins (String.toList "Course Syllabus, final exam rules")
     (by decide) (by decide)⟩

/-- C9 counterexample: at 7500 characters and no tables the code gives 2
pages (Python `round` takes the 2.5 tie to even, before the table
adjustment), while the claimed formula "remainder ≥ 0.5 after the table
adjustment rounds up" gives 3. -/
theorem c9_counterexample :
    estimatedPages 7500 0 = 2 ∧ specEstimatedPages 7500 0 = 3 := by
  have h0 : ((7500 : ℕ) : ℚ) / 3000 = 5 / 2 := by norm_num
  have hf1 : ⌊(5 / 2 : ℚ)⌋ = 2 := by
    rw [Int.floor_eq_iff]
    constructor <;> norm_num
  have hround : pyRoundHalfEven (((7500 : ℕ) : ℚ) / 3000) = 2 := by
    rw [h0]
    simp only [pyRoundHalfEven, hf1]
    norm_num
  constructor
  · have h2 := pyInt_int_add_half (max 1 (pyRoundHalfEven (((7500 : ℕ) : ℚ) / 3000)))
      0 (le_max_left _ _)
    simp only [estimatedPages]
    rw [h2, hround]
    rfl
  · simp only [specEstimatedPages]
    have harg : ((7500 : ℕ) : ℚ) / 3000 + ((0 : ℕ) : ℚ) * (1 / 2) + 1 / 2 = 3 := by
      push_cast
      norm_num
    rw [harg]
    have hf3 : ⌊(3 : ℚ)⌋ = 3 := by
      rw [Int.floor_eq_iff]
      constructor <;> norm_num
    rw [hf3]
    exact max_eq_right (by norm_num)

/-- C9 (amended): the estimate is computed in two stages, not as one
rounding of `chars/3000 + 0.5·tables`: first `chars/3000` is rounded to the
nearest integer with ties to even and clamped to a minimum of 1, then 0.5
page per table is added and that sum rounded half-up, which adds exactly
`⌈tables/2⌉` whole pages. -/
theorem c9_two_stage_rounding (totalChars tablesCount : Nat) :
    estimatedPages totalChars tablesCount =
      max 1 (pyRoundHalfEven ((totalChars : ℚ) / 3000)) +
        ((tablesCount + 1) / 2 : Nat) := by
  simp only [estimatedPages]
  exact pyInt_int_add_half _ _ (le_max_left _ _)

/-- C9 witness: the amended theorem applied at 3100 characters, 1 table. -/
theorem c9_two_stage_rounding_witness :
    estimatedPages 3100 1 =
      max 1 (pyRoundHalfEven ((3100 : ℚ) / 3000)) + ((1 + 1) / 2 : Nat) :=
  c9_two_stage_rounding 3100 1

/-- C10: `to_dict` always emits the six base keys and emits `tables`,
`images` and `audio_transcription` exactly when the corresponding attribute
is truthy (nonempty sequence, nonempty string); an empty or absent optional
field leaves its key out of the mapping. -/
theorem c10_to_dict_keys (r : ParsingResult) :
    ("text" ∈ dictKeys r.toDict ∧ "metadata" ∈ dictKeys r.toDict ∧
     "pages" ∈ dictKeys r.toDict ∧ "structure" ∈ dictKeys r.toDict ∧
     "success" ∈ dictKeys r.toDict ∧ "error" ∈ dictKeys r.toDict) ∧
    ("tables" ∈ dictKeys r.toDict ↔ r.tables ≠ []) ∧
    ("images" ∈ dictKeys r.toDict ↔ r.images ≠ []) ∧
    ("audio_transcription" ∈ dictKeys r.toDict ↔
      truthyOptStr r.audioTranscription = true) := by
  obtain ⟨tx, md, pg, ds, er, tb, im, au⟩ := r
  cases tb <;> cases im <;> rcases au with _ | l <;>
    simp [ParsingResult.toDict, dictKeys, truthyOptStr]

/-- C10 witness: the theorem applied at a result with a table, no images and
a nonempty transcription. -/
theorem c10_to_dict_keys_witness :
    ("text" ∈ dictKeys richParsingResult.toDict) ∧
    ("tables" ∈ dictKeys richParsingResult.toDict ↔
      richParsingResult.tables ≠ []) ∧
    ("images" ∈ dictKeys richParsingResult.toDict ↔
      richParsingResult.images ≠ []) :=
  ⟨(c10_to_dict_keys richParsingResult).1.1,
   (c10_to_dict_keys richParsingResult).2.1,
   (c10_to_dict_keys richParsingResult).2.2.1⟩

end SingSi
